import Mathlib

/-!
Shallow embedding of the ATM ledger service
(`src/atm_interface/services/atm_service.py`, models in
`src/atm_interface/models/transaction.py`, history endpoint in
`src/main.py`).

Modelling choices:
* Python float amounts are modelled as `Rat` (exact arithmetic; the service
  performs only `+` and `-` on balances).
* The Supabase store is modelled as an in-memory state: an association list
  of accounts keyed by id, an append-only transaction list, and a card table.
* `db.update_record` and `db.insert_record` are fallible writes: a failure
  oracle `fails : Nat -> Bool`, consulted at the current logical clock,
  decides whether a given write raises.  A raised write performs nothing and
  the exception propagates (the Python `except` blocks only log and re-raise),
  so the state accumulated before the failing write is kept.  `noFail` is the
  oracle of an always-healthy store.
* The logical clock advances by one at every successful write; a transaction
  record gets the clock value at its insertion as `created_at`, which makes
  `created_at` strictly increasing across inserts, matching the time-derived
  ordering of the real store.
* Operations return the stored transaction record.  The pydantic
  `Transaction` model additionally rounds `amount` and `balance_after` to two
  decimal places when the row is turned into a response object; on amounts
  with at most two fractional digits this is the identity.
-/

namespace AtmSpec

/-- Account row of the `accounts` table: `balance`, `status`
(a string such as "ACTIVE" or "FROZEN") and `account_number`. -/
structure Account where
  balance : Rat
  status : String
  account_number : String
deriving DecidableEq

/-- `TransactionType` enum from `models/transaction.py`. -/
inductive TransactionType where
  | DEPOSIT
  | WITHDRAWAL
  | TRANSFER
deriving DecidableEq

/-- `TransactionStatus` enum from `models/transaction.py`. -/
inductive TransactionStatus where
  | PENDING
  | COMPLETED
  | FAILED
deriving DecidableEq

/-- A stored row of the `transactions` table. -/
structure Txn where
  account_id : Nat
  transaction_type : TransactionType
  amount : Rat
  description : String
  balance_after : Rat
  status : TransactionStatus
  created_at : Nat
deriving DecidableEq

/-- A row of the `cards` table, as read by `validate_card`. -/
structure Card where
  id : Nat
  card_number : String
  pin_hash : String
  status : String
  account_id : Nat
deriving DecidableEq

/-- The persistent store: `accounts` keyed by account id, the append-only
`transactions` log, the `cards` table, and the logical write clock. -/
structure DBState where
  accounts : List (Nat × Account)
  transactions : List Txn
  cards : List Card
  clock : Nat
deriving DecidableEq

/-- Failures raised by the service layer (`ValueError` / pydantic validation
failure / store failure in the Python code). -/
inductive ATMError where
  | accountNotFound
  | accountsNotFound
  | insufficientFunds
  | invalidAmount
  | dbFailure
deriving DecidableEq

instance {ε α : Type} [DecidableEq ε] [DecidableEq α] : DecidableEq (Except ε α) :=
  fun x y =>
    match x, y with
    | Except.error e, Except.error f =>
      if h : e = f then isTrue (by rw [h])
      else isFalse (fun hh => h (by cases hh; rfl))
    | Except.error _, Except.ok _ => isFalse (fun hh => Except.noConfusion hh)
    | Except.ok _, Except.error _ => isFalse (fun hh => Except.noConfusion hh)
    | Except.ok a, Except.ok b =>
      if h : a = b then isTrue (by rw [h])
      else isFalse (fun hh => h (by cases hh; rfl))

/-- The failure oracle of a store whose writes always succeed. -/
def noFail : Nat → Bool := fun _ => false

/-- `db.get_record('accounts', \x7b'id': aid\x7d)`: first row whose key
matches. -/
def lookupAccount (s : DBState) (aid : Nat) : Option Account :=
  (s.accounts.find? fun p => p.1 == aid).map Prod.snd

/-- `db.update_record('accounts', \x7b'id': aid\x7d, \x7b'balance': b\x7d)`:
set the balance of every row with key `aid`; one successful write tick. -/
def updateBalance (s : DBState) (aid : Nat) (b : Rat) : DBState :=
  { s with
    accounts := s.accounts.map fun p =>
      if p.1 == aid then (p.1, { p.2 with balance := b }) else p,
    clock := s.clock + 1 }

/-- `db.insert_record('transactions', ...)`: append one row; one successful
write tick. -/
def insertTxn (s : DBState) (t : Txn) : DBState :=
  { s with transactions := s.transactions ++ [t], clock := s.clock + 1 }

/-- The transaction row built by `deposit` / `withdraw` before insertion
(`TransactionCreate` fields plus `balance_after` and COMPLETED status). -/
def newTxn (aid : Nat) (ty : TransactionType) (amount : Rat)
    (descr : String) (bal : Rat) (time : Nat) : Txn :=
  { account_id := aid
    transaction_type := ty
    amount := amount
    description := descr
    balance_after := bal
    status := TransactionStatus.COMPLETED
    created_at := time }

/-- `ATMService.deposit` (atm_service.py lines 30-63): look up the account,
validate the amount (pydantic `Field(..., gt=0)` on `TransactionCreate`),
update the balance, insert the COMPLETED transaction row, return it.  The
status of the account is never consulted. -/
def deposit (fails : Nat → Bool) (s : DBState) (aid : Nat) (amount : Rat)
    (descr : Option String) : DBState × Except ATMError Txn :=
  match lookupAccount s aid with
  | none => (s, Except.error ATMError.accountNotFound)
  | some account =>
    if amount ≤ 0 then (s, Except.error ATMError.invalidAmount)
    else
      let new_balance := account.balance + amount
      if fails s.clock then (s, Except.error ATMError.dbFailure)
      else
        let s1 := updateBalance s aid new_balance
        if fails s1.clock then (s1, Except.error ATMError.dbFailure)
        else
          let t := newTxn aid TransactionType.DEPOSIT amount
            (descr.getD "ATM Deposit") new_balance s1.clock
          (insertTxn s1 t, Except.ok t)

/-- `ATMService.withdraw` (atm_service.py lines 65-102): look up the account,
check `account['balance'] < amount` (raise "Insufficient funds"), validate
the amount, update the balance to `balance - amount`, insert the COMPLETED
row, return it. -/
def withdraw (fails : Nat → Bool) (s : DBState) (aid : Nat) (amount : Rat)
    (descr : Option String) : DBState × Except ATMError Txn :=
  match lookupAccount s aid with
  | none => (s, Except.error ATMError.accountNotFound)
  | some account =>
    if account.balance < amount then (s, Except.error ATMError.insufficientFunds)
    else if amount ≤ 0 then (s, Except.error ATMError.invalidAmount)
    else
      let new_balance := account.balance - amount
      if fails s.clock then (s, Except.error ATMError.dbFailure)
      else
        let s1 := updateBalance s aid new_balance
        if fails s1.clock then (s1, Except.error ATMError.dbFailure)
        else
          let t := newTxn aid TransactionType.WITHDRAWAL amount
            (descr.getD "ATM Withdrawal") new_balance s1.clock
          (insertTxn s1 t, Except.ok t)

/-- `ATMService.transfer` (atm_service.py lines 104-138): look up both
accounts, check the source balance, then run `withdraw` on the source and
`deposit` on the destination.  There is no self-transfer check, no status
check, and no rollback: if the deposit leg raises, the committed withdraw
leg stays in the store. -/
def transfer (fails : Nat → Bool) (s : DBState) (from_id to_id : Nat)
    (amount : Rat) : DBState × Except ATMError (Txn × Txn) :=
  match lookupAccount s from_id, lookupAccount s to_id with
  | some from_account, some to_account =>
    if from_account.balance < amount then
      (s, Except.error ATMError.insufficientFunds)
    else
      match withdraw fails s from_id amount
          (some ("Transfer to " ++ to_account.account_number)) with
      | (s1, Except.error e) => (s1, Except.error e)
      | (s1, Except.ok w) =>
        match deposit fails s1 to_id amount
            (some ("Transfer from " ++ from_account.account_number)) with
        | (s2, Except.error e) => (s2, Except.error e)
        | (s2, Except.ok d) => (s2, Except.ok (w, d))
  | _, _ => (s, Except.error ATMError.accountsNotFound)

/-- Start-date bound of the history query of `main.py` (`account_history`):
`created_at >= :start_date` when a start date is given, otherwise no bound. -/
def afterStart (sd : Option Nat) (t : Txn) : Bool :=
  match sd with
  | none => true
  | some d0 => decide (d0 ≤ t.created_at)

/-- End-date bound: `created_at <= :end_date` when an end date is given. -/
def beforeEnd (ed : Option Nat) (t : Txn) : Bool :=
  match ed with
  | none => true
  | some d1 => decide (t.created_at ≤ d1)

/-- The WHERE clause of the history query: same account and inside the
(optional, inclusive) date bounds. -/
def historyMatches (aid : Nat) (sd ed : Option Nat) (t : Txn) : Bool :=
  t.account_id == aid && afterStart sd t && beforeEnd ed t

/-- `ORDER BY created_at DESC`: later rows first. -/
def createdDesc : Txn → Txn → Prop := fun a b => b.created_at ≤ a.created_at

instance : DecidableRel createdDesc := fun a b => Nat.decLe b.created_at a.created_at

instance : IsTotal Txn createdDesc :=
  ⟨fun a b => le_total b.created_at a.created_at⟩

instance : IsTrans Txn createdDesc :=
  ⟨fun _ _ _ h1 h2 => le_trans h2 h1⟩

/-- The `account_history` endpoint of `main.py` (lines 374-401):
`SELECT * FROM transactions WHERE account_id = :account_id`
plus the optional inclusive date bounds, `ORDER BY created_at DESC`. -/
def account_history (s : DBState) (aid : Nat) (sd ed : Option Nat) : List Txn :=
  List.insertionSort createdDesc (s.transactions.filter (historyMatches aid sd ed))

/-- Result of `validate_card`. -/
structure CardValidation where
  card_id : Nat
  account_id : Nat
  account_number : String
deriving DecidableEq

/-- `ATMService.validate_card` (atm_service.py lines 157-182): look up the
card by number, compare the PIN by plain equality, check the card status,
resolve the linked account.  Each failing check raises a `ValueError` with
its own message, which `main.py` returns verbatim to the caller. -/
def validate_card (s : DBState) (card_number pin : String) :
    Except String CardValidation :=
  match s.cards.find? fun c => c.card_number == card_number with
  | none => Except.error "Invalid card"
  | some card =>
    if card.pin_hash ≠ pin then Except.error "Invalid PIN"
    else if card.status ≠ "ACTIVE" then Except.error "Card is not active"
    else
      match lookupAccount s card.account_id with
      | none => Except.error "Account not found"
      | some account =>
        Except.ok { card_id := card.id
                    account_id := card.account_id
                    account_number := account.account_number }

/-- A ledger operation as invocable through the service interface. -/
inductive Op where
  | dep (aid : Nat) (amount : Rat) (descr : Option String)
  | wd (aid : Nat) (amount : Rat) (descr : Option String)
  | tr (src dst : Nat) (amount : Rat)

/-- Run one operation against a healthy store, keeping the resulting state
whether the operation succeeded or raised. -/
def applyOp (s : DBState) : Op → DBState
  | Op.dep a m d => (deposit noFail s a m d).1
  | Op.wd a m d => (withdraw noFail s a m d).1
  | Op.tr a b m => (transfer noFail s a b m).1

/-- Run a sequence of operations against a healthy store. -/
def run (s : DBState) (ops : List Op) : DBState := ops.foldl applyOp s

/-- The signed contribution of a transaction row to its account balance:
deposits count positively, withdrawals negatively.  The service never
inserts a row of type TRANSFER (transfer legs are DEPOSIT / WITHDRAWAL
rows), so the TRANSFER branch is unreachable on service-created rows. -/
def signedAmount (t : Txn) : Rat :=
  match t.transaction_type with
  | TransactionType.DEPOSIT => t.amount
  | TransactionType.WITHDRAWAL => -t.amount
  | TransactionType.TRANSFER => 0

/-- Does this COMPLETED row belong to account `aid`? -/
def completedFor (aid : Nat) (t : Txn) : Bool :=
  t.account_id == aid && decide (t.status = TransactionStatus.COMPLETED)

/-- Signed sum of the COMPLETED transactions of account `aid`. -/
def completedSum (aid : Nat) (ts : List Txn) : Rat :=
  ((ts.filter (completedFor aid)).map signedAmount).sum

/-- Every stored account balance equals the signed sum of the COMPLETED
transactions that reference it. -/
def balancesMatch (s : DBState) : Prop :=
  ∀ p ∈ s.accounts, p.2.balance = completedSum p.1 s.transactions

/-- Every recorded transaction carries as `balance_after` the running
signed total of its account at the point it was recorded. -/
def balanceAfterOk (s : DBState) : Prop :=
  ∀ i (h : i < s.transactions.length),
    (s.transactions[i]).balance_after =
      completedSum (s.transactions[i]).account_id (s.transactions.take (i + 1))

instance (s : DBState) : Decidable (balancesMatch s) := by
  unfold balancesMatch; infer_instance

instance (s : DBState) : Decidable (balanceAfterOk s) := by
  unfold balanceAfterOk; infer_instance

/-- The ledger invariant of the spec: balances are a materialized cache of
the transaction history, and `balance_after` fields match the running total. -/
def ledgerConsistent (s : DBState) : Prop := balancesMatch s ∧ balanceAfterOk s

instance (s : DBState) : Decidable (ledgerConsistent s) := by
  unfold ledgerConsistent; infer_instance

/-- All stored balances are nonnegative. -/
def balancesNonneg (s : DBState) : Prop :=
  ∀ p ∈ s.accounts, 0 ≤ p.2.balance

instance (s : DBState) : Decidable (balancesNonneg s) := by
  unfold balancesNonneg; infer_instance

/-- An amount representable with at most two fractional digits. -/
def twoDecimal (q : Rat) : Prop := (q * 100).den = 1

instance : DecidablePred twoDecimal :=
  fun q => inferInstanceAs (Decidable ((q * 100).den = 1))

/-! Concrete sample rows and states used by counterexamples and witnesses. -/

/-- Sample active account with balance 100. -/
def accA : Account := { balance := 100, status := "ACTIVE", account_number := "ACC-1" }

/-- Sample active account with balance 0. -/
def accB : Account := { balance := 0, status := "ACTIVE", account_number := "ACC-2" }

/-- Sample frozen account with balance 100. -/
def accFrozen : Account := { balance := 100, status := "FROZEN", account_number := "ACC-3" }

/-- Sample card with a known PIN, linked to account 1. -/
def cardOk : Card :=
  { id := 10, card_number := "1111", pin_hash := "1234", status := "ACTIVE", account_id := 1 }

/-- Sample blocked card. -/
def cardBlocked : Card :=
  { id := 11, card_number := "2222", pin_hash := "1234", status := "BLOCKED", account_id := 1 }

/-- Base sample store: accounts 1 (balance 100) and 2 (balance 0), empty log. -/
def baseState : DBState :=
  { accounts := [(1, accA), (2, accB)], transactions := [], cards := [cardOk, cardBlocked],
    clock := 0 }

/-- Store holding only a frozen account with balance 100. -/
def frozenState : DBState :=
  { accounts := [(1, accFrozen)], transactions := [], cards := [], clock := 0 }

/-- Store holding only an active account with balance 0. -/
def zeroState : DBState :=
  { accounts := [(1, accB)], transactions := [], cards := [], clock := 0 }

/-- Fresh ledger: two accounts opened at balance 0, no history yet. -/
def freshLedger : DBState :=
  { accounts := [(1, accB), (2, { accB with account_number := "ACC-5" })],
    transactions := [], cards := [], clock := 0 }

end AtmSpec

namespace AtmSpec

/-! ### Observations on the primitive store writes -/

@[simp] theorem updateBalance_clock (s : DBState) (aid : Nat) (b : Rat) :
    (updateBalance s aid b).clock = s.clock + 1 := rfl

@[simp] theorem updateBalance_transactions (s : DBState) (aid : Nat) (b : Rat) :
    (updateBalance s aid b).transactions = s.transactions := rfl

@[simp] theorem updateBalance_cards (s : DBState) (aid : Nat) (b : Rat) :
    (updateBalance s aid b).cards = s.cards := rfl

@[simp] theorem insertTxn_clock (s : DBState) (t : Txn) :
    (insertTxn s t).clock = s.clock + 1 := rfl

@[simp] theorem insertTxn_transactions (s : DBState) (t : Txn) :
    (insertTxn s t).transactions = s.transactions ++ [t] := rfl

@[simp] theorem insertTxn_accounts (s : DBState) (t : Txn) :
    (insertTxn s t).accounts = s.accounts := rfl

@[simp] theorem insertTxn_cards (s : DBState) (t : Txn) :
    (insertTxn s t).cards = s.cards := rfl

@[simp] theorem lookup_insertTxn (s : DBState) (t : Txn) (aid : Nat) :
    lookupAccount (insertTxn s t) aid = lookupAccount s aid := rfl

/-- Effect of the balance update on subsequent account reads: the updated
account reads back with the new balance, every other account is untouched. -/
theorem lookup_updateBalance (s : DBState) (aid aid2 : Nat) (b : Rat) :
    lookupAccount (updateBalance s aid b) aid2 =
      if aid2 = aid then (lookupAccount s aid2).map fun a => { a with balance := b }
      else lookupAccount s aid2 := by
  unfold lookupAccount updateBalance
  simp only [List.find?_map]
  have hpf : ((fun q : Nat × Account => q.1 == aid2) ∘ fun p =>
      if p.1 == aid then (p.1, { p.2 with balance := b }) else p) =
      fun q : Nat × Account => q.1 == aid2 := by
    funext q
    by_cases hq : q.1 = aid <;> simp [hq]
  rw [hpf]
  cases h : s.accounts.find? fun q => q.1 == aid2 with
  | none => split <;> simp
  | some q =>
    have hq2 : q.1 = aid2 := by simpa using List.find?_some h
    by_cases haid : aid2 = aid
    · subst haid
      simp [hq2]
    · simp [haid, hq2]

end AtmSpec

namespace AtmSpec

/-! ### Branch characterizations of deposit and withdraw -/

theorem deposit_not_found {s : DBState} {aid : Nat} {amount : Rat} {d : Option String}
    {fails : Nat → Bool} (h : lookupAccount s aid = none) :
    deposit fails s aid amount d = (s, Except.error ATMError.accountNotFound) := by
  unfold deposit; rw [h]

theorem deposit_nonpos {s : DBState} {aid : Nat} {acc : Account} {amount : Rat}
    {d : Option String} {fails : Nat → Bool}
    (h : lookupAccount s aid = some acc) (ha : amount ≤ 0) :
    deposit fails s aid amount d = (s, Except.error ATMError.invalidAmount) := by
  unfold deposit; rw [h]; simp [ha]

theorem deposit_fail_update {s : DBState} {aid : Nat} {acc : Account} {amount : Rat}
    {d : Option String} {fails : Nat → Bool}
    (h : lookupAccount s aid = some acc) (ha : ¬ amount ≤ 0)
    (hf : fails s.clock = true) :
    deposit fails s aid amount d = (s, Except.error ATMError.dbFailure) := by
  unfold deposit; rw [h]; simp [ha, hf]

theorem deposit_ok {s : DBState} {aid : Nat} {acc : Account} {amount : Rat}
    {d : Option String} {fails : Nat → Bool}
    (h : lookupAccount s aid = some acc) (ha : ¬ amount ≤ 0)
    (hf0 : fails s.clock = false) (hf1 : fails (s.clock + 1) = false) :
    deposit fails s aid amount d =
      (insertTxn (updateBalance s aid (acc.balance + amount))
         (newTxn aid TransactionType.DEPOSIT amount (d.getD "ATM Deposit")
           (acc.balance + amount) (s.clock + 1)),
       Except.ok (newTxn aid TransactionType.DEPOSIT amount (d.getD "ATM Deposit")
           (acc.balance + amount) (s.clock + 1))) := by
  unfold deposit; rw [h]; simp [ha, hf0, hf1]

theorem withdraw_not_found {s : DBState} {aid : Nat} {amount : Rat} {d : Option String}
    {fails : Nat → Bool} (h : lookupAccount s aid = none) :
    withdraw fails s aid amount d = (s, Except.error ATMError.accountNotFound) := by
  unfold withdraw; rw [h]

theorem withdraw_insufficient {s : DBState} {aid : Nat} {acc : Account} {amount : Rat}
    {d : Option String} {fails : Nat → Bool}
    (h : lookupAccount s aid = some acc) (hlt : acc.balance < amount) :
    withdraw fails s aid amount d = (s, Except.error ATMError.insufficientFunds) := by
  unfold withdraw; rw [h]; simp [hlt]

theorem withdraw_nonpos {s : DBState} {aid : Nat} {acc : Account} {amount : Rat}
    {d : Option String} {fails : Nat → Bool}
    (h : lookupAccount s aid = some acc) (hge : ¬ acc.balance < amount)
    (ha : amount ≤ 0) :
    withdraw fails s aid amount d = (s, Except.error ATMError.invalidAmount) := by
  unfold withdraw; rw [h]; simp [hge, ha]

theorem withdraw_fail_update {s : DBState} {aid : Nat} {acc : Account} {amount : Rat}
    {d : Option String} {fails : Nat → Bool}
    (h : lookupAccount s aid = some acc) (hge : ¬ acc.balance < amount)
    (ha : ¬ amount ≤ 0) (hf : fails s.clock = true) :
    withdraw fails s aid amount d = (s, Except.error ATMError.dbFailure) := by
  unfold withdraw; rw [h]; simp [hge, ha, hf]

theorem withdraw_ok {s : DBState} {aid : Nat} {acc : Account} {amount : Rat}
    {d : Option String} {fails : Nat → Bool}
    (h : lookupAccount s aid = some acc) (hge : ¬ acc.balance < amount)
    (ha : ¬ amount ≤ 0)
    (hf0 : fails s.clock = false) (hf1 : fails (s.clock + 1) = false) :
    withdraw fails s aid amount d =
      (insertTxn (updateBalance s aid (acc.balance - amount))
         (newTxn aid TransactionType.WITHDRAWAL amount (d.getD "ATM Withdrawal")
           (acc.balance - amount) (s.clock + 1)),
       Except.ok (newTxn aid TransactionType.WITHDRAWAL amount (d.getD "ATM Withdrawal")
           (acc.balance - amount) (s.clock + 1))) := by
  unfold withdraw; rw [h]; simp [hge, ha, hf0, hf1]

end AtmSpec

namespace AtmSpec

/-! ### The ledger invariant under single legs -/

@[simp] theorem updateBalance_accounts (s : DBState) (aid : Nat) (b : Rat) :
    (updateBalance s aid b).accounts =
      s.accounts.map fun p =>
        if p.1 == aid then (p.1, { p.2 with balance := b }) else p := rfl

/-- A successful account read comes from a stored row with that key. -/
theorem lookup_mem {s : DBState} {aid : Nat} {acc : Account}
    (h : lookupAccount s aid = some acc) :
    ∃ q ∈ s.accounts, q.1 = aid ∧ q.2 = acc := by
  unfold lookupAccount at h
  cases hf : s.accounts.find? fun p => p.1 == aid with
  | none => rw [hf] at h; simp at h
  | some q =>
    rw [hf] at h
    refine ⟨q, List.mem_of_find?_eq_some hf, ?_, ?_⟩
    · simpa using List.find?_some hf
    · simpa using h

theorem lookup_balance_eq {s : DBState} {aid : Nat} {acc : Account}
    (h : lookupAccount s aid = some acc) (hinv : balancesMatch s) :
    acc.balance = completedSum aid s.transactions := by
  obtain ⟨q, hq, hqa, hqacc⟩ := lookup_mem h
  have := hinv q hq
  rw [hqa, hqacc] at this
  exact this

theorem lookup_balance_nonneg {s : DBState} {aid : Nat} {acc : Account}
    (h : lookupAccount s aid = some acc) (hinv : balancesNonneg s) :
    0 ≤ acc.balance := by
  obtain ⟨q, hq, _, hqacc⟩ := lookup_mem h
  have := hinv q hq
  rw [hqacc] at this
  exact this

theorem completedSum_append (aid : Nat) (ts us : List Txn) :
    completedSum aid (ts ++ us) = completedSum aid ts + completedSum aid us := by
  simp [completedSum, List.filter_append]

theorem completedSum_single_on {aid : Nat} {t : Txn} (h : completedFor aid t = true) :
    completedSum aid [t] = signedAmount t := by
  simp [completedSum, List.filter, h]

theorem completedSum_single_off {aid : Nat} {t : Txn} (h : completedFor aid t = false) :
    completedSum aid [t] = 0 := by
  simp [completedSum, List.filter, h]

/-- One committed ledger leg (balance write plus COMPLETED row whose
`balance_after` is the new running total) preserves the ledger invariant. -/
theorem ledgerConsistent_leg {s : DBState} {aid : Nat} {t : Txn} {nb : Rat}
    (hid : t.account_id = aid) (hst : t.status = TransactionStatus.COMPLETED)
    (hbal : t.balance_after = nb)
    (hnb : nb = completedSum aid s.transactions + signedAmount t)
    (hinv : ledgerConsistent s) :
    ledgerConsistent (insertTxn (updateBalance s aid nb) t) := by
  have hfor : completedFor aid t = true := by simp [completedFor, hid, hst]
  constructor
  · intro p hp
    simp only [insertTxn_accounts, updateBalance_accounts] at hp
    obtain ⟨q, hq, rfl⟩ := List.mem_map.1 hp
    simp only [insertTxn_transactions, updateBalance_transactions]
    by_cases hk : q.1 = aid
    · simp only [hk, beq_self_eq_true, if_true]
      rw [completedSum_append, completedSum_single_on hfor, ← hnb]
    · have hkb : (q.1 == aid) = false := by simp [hk]
      have hforq : completedFor q.1 t = false := by
        simp [completedFor, hid]
        intro hcon
        exact absurd (hcon ▸ rfl) hk
      have hred : (if (q.1 == aid) = true then
          (q.1, { q.2 with balance := nb }) else q) = q := by
        rw [hkb]
        simp
      rw [hred, completedSum_append, completedSum_single_off hforq, add_zero]
      exact hinv.1 q hq
  · intro i hlen
    simp only [insertTxn_transactions, updateBalance_transactions,
      List.length_append, List.length_cons, List.length_nil] at hlen ⊢
    rcases Nat.lt_succ_iff_lt_or_eq.1 hlen with hi | hi
    · rw [List.getElem_append_left hi, List.take_append_of_le_length (by omega)]
      exact hinv.2 i hi
    · subst hi
      rw [List.getElem_concat_length]
      · rw [List.take_of_length_le (by simp)]
        rw [hid, hbal, hnb, completedSum_append, completedSum_single_on hfor]
      · rfl

/-- One balance write to a nonnegative value preserves nonnegativity of all
balances; the appended row does not touch balances. -/
theorem balancesNonneg_leg {s : DBState} {aid : Nat} {t : Txn} {nb : Rat}
    (hnb : 0 ≤ nb) (hinv : balancesNonneg s) :
    balancesNonneg (insertTxn (updateBalance s aid nb) t) := by
  intro p hp
  simp only [insertTxn_accounts, updateBalance_accounts] at hp
  obtain ⟨q, hq, rfl⟩ := List.mem_map.1 hp
  by_cases hk : (q.1 == aid) = true
  · simp only [hk, if_true]
    exact hnb
  · simp only [hk, if_false]
    exact hinv q hq

end AtmSpec

namespace AtmSpec

/-! ### Preservation across whole operations and sequences -/

theorem ledgerConsistent_deposit_fst (s : DBState) (aid : Nat) (amount : Rat)
    (d : Option String) (hinv : ledgerConsistent s) :
    ledgerConsistent (deposit noFail s aid amount d).1 := by
  cases h : lookupAccount s aid with
  | none => rw [deposit_not_found h]; exact hinv
  | some acc =>
    by_cases ha : amount ≤ 0
    · rw [deposit_nonpos h ha]; exact hinv
    · rw [deposit_ok h ha rfl rfl]
      refine ledgerConsistent_leg rfl rfl rfl ?_ hinv
      rw [lookup_balance_eq h hinv.1]
      rfl

theorem ledgerConsistent_withdraw_fst (s : DBState) (aid : Nat) (amount : Rat)
    (d : Option String) (hinv : ledgerConsistent s) :
    ledgerConsistent (withdraw noFail s aid amount d).1 := by
  cases h : lookupAccount s aid with
  | none => rw [withdraw_not_found h]; exact hinv
  | some acc =>
    by_cases hlt : acc.balance < amount
    · rw [withdraw_insufficient h hlt]; exact hinv
    · by_cases ha : amount ≤ 0
      · rw [withdraw_nonpos h hlt ha]; exact hinv
      · rw [withdraw_ok h hlt ha rfl rfl]
        refine ledgerConsistent_leg rfl rfl rfl ?_ hinv
        show acc.balance - amount = completedSum aid s.transactions + -amount
        rw [lookup_balance_eq h hinv.1, sub_eq_add_neg]

/-- Every branch of `transfer` returns either the input state or a state
obtained from it by a `withdraw` step possibly followed by a `deposit` step,
so any property preserved by those two operations is preserved by transfer. -/
theorem transfer_fst_preserved {P : DBState → Prop}
    (hdep : ∀ s aid amount d, P s → P (deposit noFail s aid amount d).1)
    (hwd : ∀ s aid amount d, P s → P (withdraw noFail s aid amount d).1)
    (s : DBState) (src dst : Nat) (amount : Rat) (hP : P s) :
    P (transfer noFail s src dst amount).1 := by
  unfold transfer
  cases h1 : lookupAccount s src with
  | none => simpa using hP
  | some fa =>
    cases h2 : lookupAccount s dst with
    | none => simpa using hP
    | some ta =>
      by_cases hlt : fa.balance < amount
      · simpa [hlt] using hP
      · simp only [hlt, if_false]
        rcases hw : withdraw noFail s src amount
            (some ("Transfer to " ++ ta.account_number)) with ⟨s1, r⟩
        have hs1 : P s1 := by
          have := hwd s src amount (some ("Transfer to " ++ ta.account_number)) hP
          rw [hw] at this
          exact this
        cases r with
        | error e => simp [hs1]
        | ok w =>
          show P (match deposit noFail s1 dst amount
              (some ("Transfer from " ++ fa.account_number)) with
            | (s2, Except.error e) => (s2, Except.error e)
            | (s2, Except.ok dt) => (s2, Except.ok (w, dt))).1
          rcases hd : deposit noFail s1 dst amount
              (some ("Transfer from " ++ fa.account_number)) with ⟨s2, r2⟩
          have hs2 : P s2 := by
            have := hdep s1 dst amount (some ("Transfer from " ++ fa.account_number)) hs1
            rw [hd] at this
            exact this
          cases r2 with
          | error e => exact hs2
          | ok dt => exact hs2

theorem ledgerConsistent_transfer_fst (s : DBState) (src dst : Nat) (amount : Rat)
    (hinv : ledgerConsistent s) :
    ledgerConsistent (transfer noFail s src dst amount).1 :=
  transfer_fst_preserved ledgerConsistent_deposit_fst ledgerConsistent_withdraw_fst
    s src dst amount hinv

theorem ledgerConsistent_applyOp (s : DBState) (op : Op)
    (hinv : ledgerConsistent s) : ledgerConsistent (applyOp s op) := by
  cases op with
  | dep a m d => exact ledgerConsistent_deposit_fst s a m d hinv
  | wd a m d => exact ledgerConsistent_withdraw_fst s a m d hinv
  | tr a b m => exact ledgerConsistent_transfer_fst s a b m hinv

theorem run_preserves {P : DBState → Prop}
    (hstep : ∀ s op, P s → P (applyOp s op)) :
    ∀ ops (s : DBState), P s → P (run s ops) := by
  intro ops
  induction ops with
  | nil => intro s h; exact h
  | cons op rest ih =>
    intro s h
    exact ih (applyOp s op) (hstep s op h)

theorem balancesNonneg_deposit_fst (s : DBState) (aid : Nat) (amount : Rat)
    (d : Option String) (hinv : balancesNonneg s) :
    balancesNonneg (deposit noFail s aid amount d).1 := by
  cases h : lookupAccount s aid with
  | none => rw [deposit_not_found h]; exact hinv
  | some acc =>
    by_cases ha : amount ≤ 0
    · rw [deposit_nonpos h ha]; exact hinv
    · rw [deposit_ok h ha rfl rfl]
      refine balancesNonneg_leg ?_ hinv
      have h0 := lookup_balance_nonneg h hinv
      have h1 : 0 < amount := lt_of_not_le ha
      linarith

theorem balancesNonneg_withdraw_fst (s : DBState) (aid : Nat) (amount : Rat)
    (d : Option String) (hinv : balancesNonneg s) :
    balancesNonneg (withdraw noFail s aid amount d).1 := by
  cases h : lookupAccount s aid with
  | none => rw [withdraw_not_found h]; exact hinv
  | some acc =>
    by_cases hlt : acc.balance < amount
    · rw [withdraw_insufficient h hlt]; exact hinv
    · by_cases ha : amount ≤ 0
      · rw [withdraw_nonpos h hlt ha]; exact hinv
      · rw [withdraw_ok h hlt ha rfl rfl]
        refine balancesNonneg_leg ?_ hinv
        have := not_lt.1 hlt
        linarith

theorem balancesNonneg_applyOp (s : DBState) (op : Op)
    (hinv : balancesNonneg s) : balancesNonneg (applyOp s op) := by
  cases op with
  | dep a m d => exact balancesNonneg_deposit_fst s a m d hinv
  | wd a m d => exact balancesNonneg_withdraw_fst s a m d hinv
  | tr a b m =>
    exact transfer_fst_preserved balancesNonneg_deposit_fst balancesNonneg_withdraw_fst
      s a b m hinv

end AtmSpec

namespace AtmSpec

/-! ### Claim theorems -/

/-- Claim C1 (evaluation of the code at the failing input): when the store
fails at the third write of a transfer, which is the balance update of the
credit leg, the transfer of 50 from account 1 (balance 100) to account 2
(balance 0) reports a failure, yet the debit leg stays committed: account 1
reads back with balance 50, a COMPLETED withdrawal row for account 1 is in
the log, account 2 is untouched, and the final state differs from the
initial one.  The code performs no rollback of the already-committed leg. -/
theorem C1_partial_transfer_on_midway_failure :
    (transfer (fun k => k == 2) baseState 1 2 50).2 = Except.error ATMError.dbFailure ∧
    lookupAccount (transfer (fun k => k == 2) baseState 1 2 50).1 1 =
      some { accA with balance := 50 } ∧
    lookupAccount (transfer (fun k => k == 2) baseState 1 2 50).1 2 = some accB ∧
    (transfer (fun k => k == 2) baseState 1 2 50).1.transactions =
      [newTxn 1 TransactionType.WITHDRAWAL 50 "Transfer to ACC-2" 50 1] ∧
    (transfer (fun k => k == 2) baseState 1 2 50).1 ≠ baseState := by
  with_unfolding_all decide

/-- Claim C2: running any sequence of deposit, withdraw, and transfer
operations from a store satisfying the ledger invariant preserves it: every
account balance equals the signed sum of the COMPLETED transactions that
reference it, and every recorded transaction carries as `balance_after` the
running total of its account at the point it was recorded. -/
theorem C2_balance_history_consistency (s : DBState) (ops : List Op)
    (hinv : ledgerConsistent s) : ledgerConsistent (run s ops) :=
  run_preserves ledgerConsistent_applyOp ops s hinv

/-- Witness for C2 at a concrete fresh ledger and operation sequence. -/
theorem C2_balance_history_consistency_witness :
    ledgerConsistent freshLedger ∧
    ledgerConsistent (run freshLedger [Op.dep 1 50 none, Op.wd 1 30 none, Op.tr 1 2 20]) :=
  ⟨by with_unfolding_all decide,
   C2_balance_history_consistency freshLedger
     [Op.dep 1 50 none, Op.wd 1 30 none, Op.tr 1 2 20]
     (by with_unfolding_all decide)⟩

/-- Claim C3: a withdrawal for more than the current balance fails with the
insufficient-funds error and leaves the store exactly as it was (balance
unchanged, no transaction row), and no sequence of operations ever drives
any stored balance below zero. -/
theorem C3_insufficient_funds_and_no_negative_balance (s : DBState) (aid : Nat)
    (acc : Account) (amount : Rat) (d : Option String) (ops : List Op) :
    (lookupAccount s aid = some acc → acc.balance < amount →
      withdraw noFail s aid amount d = (s, Except.error ATMError.insufficientFunds)) ∧
    (balancesNonneg s → balancesNonneg (run s ops)) :=
  ⟨fun h hlt => withdraw_insufficient h hlt,
   fun hinv => run_preserves balancesNonneg_applyOp ops s hinv⟩

/-- Witness for C3: rejected overdraft on a concrete store, and
nonnegativity after a concrete operation sequence. -/
theorem C3_insufficient_funds_and_no_negative_balance_witness :
    withdraw noFail baseState 1 200 none =
      (baseState, Except.error ATMError.insufficientFunds) ∧
    balancesNonneg (run baseState [Op.wd 1 70 none, Op.tr 1 2 30]) :=
  ⟨(C3_insufficient_funds_and_no_negative_balance baseState 1 accA 200 none []).1
     (by with_unfolding_all decide) (by with_unfolding_all decide),
   (C3_insufficient_funds_and_no_negative_balance baseState 1 accA 200 none
     [Op.wd 1 70 none, Op.tr 1 2 30]).2 (by with_unfolding_all decide)⟩

/-- Claim C4: a successful deposit of a valid (positive, two-decimal) amount
to an existing account with prior balance b leaves the balance at exactly
b + amount and appends exactly one new COMPLETED transaction row whose
`balance_after` is b + amount; the returned value is that row. -/
theorem C4_deposit_postcondition (s : DBState) (aid : Nat) (acc : Account)
    (amount : Rat) (d : Option String)
    (h : lookupAccount s aid = some acc) (ha : 0 < amount)
    (_hc : twoDecimal amount) (_hb : twoDecimal acc.balance) :
    ∃ t : Txn,
      (deposit noFail s aid amount d).2 = Except.ok t ∧
      (deposit noFail s aid amount d).1.transactions = s.transactions ++ [t] ∧
      t.status = TransactionStatus.COMPLETED ∧
      t.transaction_type = TransactionType.DEPOSIT ∧
      t.amount = amount ∧
      t.balance_after = acc.balance + amount ∧
      lookupAccount (deposit noFail s aid amount d).1 aid =
        some { acc with balance := acc.balance + amount } := by
  have ha2 : ¬ amount ≤ 0 := not_le.2 ha
  refine ⟨newTxn aid TransactionType.DEPOSIT amount (d.getD "ATM Deposit")
    (acc.balance + amount) (s.clock + 1), ?_, ?_, rfl, rfl, rfl, rfl, ?_⟩
  · rw [deposit_ok h ha2 rfl rfl]
  · rw [deposit_ok h ha2 rfl rfl]
    simp
  · rw [deposit_ok h ha2 rfl rfl]
    simp [lookup_updateBalance, h]

/-- Witness for C4 on a concrete deposit of 50 to the balance-100 account. -/
theorem C4_deposit_postcondition_witness :
    ∃ t : Txn,
      (deposit noFail baseState 1 50 none).2 = Except.ok t ∧
      (deposit noFail baseState 1 50 none).1.transactions =
        baseState.transactions ++ [t] ∧
      t.status = TransactionStatus.COMPLETED ∧
      t.transaction_type = TransactionType.DEPOSIT ∧
      t.amount = 50 ∧
      t.balance_after = accA.balance + 50 ∧
      lookupAccount (deposit noFail baseState 1 50 none).1 1 =
        some { accA with balance := accA.balance + 50 } :=
  C4_deposit_postcondition baseState 1 accA 50 none (by with_unfolding_all decide)
    (by with_unfolding_all decide) (by with_unfolding_all decide)
    (by with_unfolding_all decide)

end AtmSpec

namespace AtmSpec

/-- Counterexample for C5: the amount 1/1000 is positive but not
representable with two fractional digits, yet the deposit is accepted: it
returns a completed transaction row and changes both the log and the
balance, instead of being rejected with an invalid-amount failure. -/
theorem C5_counterexample_subcent_accepted :
    ¬ twoDecimal (1 / 8 : Rat) ∧
    (0 : Rat) < 1 / 8 ∧
    (deposit noFail zeroState 1 (1 / 8) none).2 =
      Except.ok (newTxn 1 TransactionType.DEPOSIT (1 / 8) "ATM Deposit"
        (0 + 1 / 8) 1) ∧
    (deposit noFail zeroState 1 (1 / 8) none).1.transactions ≠
      zeroState.transactions ∧
    lookupAccount (deposit noFail zeroState 1 (1 / 8) none).1 1 ≠
      lookupAccount zeroState 1 := by
  with_unfolding_all decide

/-- Claim C5 (amended): a deposit or withdrawal request with a non-positive
amount is rejected with the invalid-amount failure before any mutation, the
store being returned exactly as it was; the two-fractional-digit restriction
is not enforced: any positive amount, of any precision, is accepted. -/
theorem C5_nonpositive_rejected_precision_unchecked (s : DBState) (aid : Nat)
    (acc : Account) (amount : Rat) (d : Option String)
    (h : lookupAccount s aid = some acc) :
    (amount ≤ 0 →
      deposit noFail s aid amount d = (s, Except.error ATMError.invalidAmount)) ∧
    (amount ≤ 0 → ¬ acc.balance < amount →
      withdraw noFail s aid amount d = (s, Except.error ATMError.invalidAmount)) ∧
    (0 < amount → ∃ t, (deposit noFail s aid amount d).2 = Except.ok t) := by
  refine ⟨fun ha => deposit_nonpos h ha,
    fun ha hge => withdraw_nonpos h hge ha,
    fun ha => ?_⟩
  have ha2 : ¬ amount ≤ 0 := not_le.2 ha
  exact ⟨_, by rw [deposit_ok h ha2 rfl rfl]⟩

/-- Witness for C5 (amended) on concrete requests. -/
theorem C5_nonpositive_rejected_precision_unchecked_witness :
    deposit noFail baseState 1 (-5) none =
      (baseState, Except.error ATMError.invalidAmount) ∧
    withdraw noFail baseState 1 (-5) none =
      (baseState, Except.error ATMError.invalidAmount) ∧
    ∃ t, (deposit noFail zeroState 1 (1 / 8) none).2 = Except.ok t :=
  ⟨(C5_nonpositive_rejected_precision_unchecked baseState 1 accA (-5) none
      (by with_unfolding_all decide)).1 (by with_unfolding_all decide),
   (C5_nonpositive_rejected_precision_unchecked baseState 1 accA (-5) none
      (by with_unfolding_all decide)).2.1 (by with_unfolding_all decide)
      (by with_unfolding_all decide),
   (C5_nonpositive_rejected_precision_unchecked zeroState 1 accB (1 / 8) none
      (by with_unfolding_all decide)).2.2 (by with_unfolding_all decide)⟩

/-- Counterexample for C6: account 1 of this store is FROZEN, yet the
deposit succeeds and its balance changes from 100 to 150; the claim
requires an account-not-active failure and no mutation. -/
theorem C6_counterexample_frozen_deposit :
    accFrozen.status ≠ "ACTIVE" ∧
    lookupAccount frozenState 1 = some accFrozen ∧
    (deposit noFail frozenState 1 50 none).2 =
      Except.ok (newTxn 1 TransactionType.DEPOSIT 50 "ATM Deposit" 150 1) ∧
    lookupAccount (deposit noFail frozenState 1 50 none).1 1 =
      some { accFrozen with balance := 150 } := by
  with_unfolding_all decide

/-- Claim C6 (amended): deposit and withdraw check only that the account
exists; the account status field is never consulted, so an account whose
status is not ACTIVE accepts mutating operations exactly like an active
one. -/
theorem C6_status_never_checked (s : DBState) (aid : Nat) (acc : Account)
    (amount : Rat) (d : Option String) (h : lookupAccount s aid = some acc)
    (_hst : acc.status ≠ "ACTIVE") (ha : 0 < amount) :
    (∃ t, (deposit noFail s aid amount d).2 = Except.ok t ∧
      lookupAccount (deposit noFail s aid amount d).1 aid =
        some { acc with balance := acc.balance + amount }) ∧
    (¬ acc.balance < amount →
      ∃ t, (withdraw noFail s aid amount d).2 = Except.ok t ∧
        lookupAccount (withdraw noFail s aid amount d).1 aid =
          some { acc with balance := acc.balance - amount }) := by
  have ha2 : ¬ amount ≤ 0 := not_le.2 ha
  constructor
  · refine ⟨newTxn aid TransactionType.DEPOSIT amount (d.getD "ATM Deposit")
      (acc.balance + amount) (s.clock + 1), ?_, ?_⟩
    · rw [deposit_ok h ha2 rfl rfl]
    · rw [deposit_ok h ha2 rfl rfl]
      simp [lookup_updateBalance, h]
  · intro hge
    refine ⟨newTxn aid TransactionType.WITHDRAWAL amount (d.getD "ATM Withdrawal")
      (acc.balance - amount) (s.clock + 1), ?_, ?_⟩
    · rw [withdraw_ok h hge ha2 rfl rfl]
    · rw [withdraw_ok h hge ha2 rfl rfl]
      simp [lookup_updateBalance, h]

/-- Witness for C6 (amended) on the concrete frozen account. -/
theorem C6_status_never_checked_witness :
    (∃ t, (deposit noFail frozenState 1 50 none).2 = Except.ok t ∧
      lookupAccount (deposit noFail frozenState 1 50 none).1 1 =
        some { accFrozen with balance := accFrozen.balance + 50 }) ∧
    (¬ accFrozen.balance < 50 →
      ∃ t, (withdraw noFail frozenState 1 50 none).2 = Except.ok t ∧
        lookupAccount (withdraw noFail frozenState 1 50 none).1 1 =
          some { accFrozen with balance := accFrozen.balance - 50 }) :=
  C6_status_never_checked frozenState 1 accFrozen 50 none
    (by with_unfolding_all decide) (by with_unfolding_all decide)
    (by with_unfolding_all decide)

/-- Counterexample for C7: a transfer from account 1 to itself is not
rejected: it succeeds, records a withdrawal row and a deposit row, and
leaves the balance unchanged; the claim requires an invalid-transfer
failure with no effect on the log. -/
theorem C7_counterexample_self_transfer_accepted :
    (transfer noFail baseState 1 1 50).2 =
      Except.ok (newTxn 1 TransactionType.WITHDRAWAL 50 "Transfer to ACC-1" 50 1,
                 newTxn 1 TransactionType.DEPOSIT 50 "Transfer from ACC-1" 100 3) ∧
    (transfer noFail baseState 1 1 50).1.transactions ≠ baseState.transactions ∧
    lookupAccount (transfer noFail baseState 1 1 50).1 1 = some accA := by
  with_unfolding_all decide

/-- Claim C7 (amended): a self-transfer of a positive amount within the
balance is accepted: the withdraw leg and the deposit leg both run against
the same account, two transaction rows are appended, and the balance ends
exactly where it started because the deposit leg re-reads the balance
written by the withdraw leg. -/
theorem C7_self_transfer_not_rejected (s : DBState) (aid : Nat) (acc : Account)
    (amount : Rat) (h : lookupAccount s aid = some acc) (ha : 0 < amount)
    (hge : ¬ acc.balance < amount) :
    ∃ w dt : Txn,
      (transfer noFail s aid aid amount).2 = Except.ok (w, dt) ∧
      (transfer noFail s aid aid amount).1.transactions =
        s.transactions ++ [w, dt] ∧
      w.transaction_type = TransactionType.WITHDRAWAL ∧
      dt.transaction_type = TransactionType.DEPOSIT ∧
      lookupAccount (transfer noFail s aid aid amount).1 aid = some acc := by
  have ha2 : ¬ amount ≤ 0 := not_le.2 ha
  have hw := withdraw_ok (d := some ("Transfer to " ++ acc.account_number))
    h hge ha2 (rfl : noFail s.clock = false) rfl
  have hlook1 : lookupAccount (insertTxn (updateBalance s aid (acc.balance - amount))
      (newTxn aid TransactionType.WITHDRAWAL amount
        ((some ("Transfer to " ++ acc.account_number)).getD "ATM Withdrawal")
        (acc.balance - amount) (s.clock + 1))) aid =
      some { acc with balance := acc.balance - amount } := by
    simp [lookup_updateBalance, h]
  have hd := deposit_ok (d := some ("Transfer from " ++ acc.account_number))
    hlook1 ha2
    (rfl : noFail (insertTxn (updateBalance s aid (acc.balance - amount))
      (newTxn aid TransactionType.WITHDRAWAL amount
        ((some ("Transfer to " ++ acc.account_number)).getD "ATM Withdrawal")
        (acc.balance - amount) (s.clock + 1))).clock = false) rfl
  refine ⟨newTxn aid TransactionType.WITHDRAWAL amount
      ((some ("Transfer to " ++ acc.account_number)).getD "ATM Withdrawal")
      (acc.balance - amount) (s.clock + 1),
    newTxn aid TransactionType.DEPOSIT amount
      ((some ("Transfer from " ++ acc.account_number)).getD "ATM Deposit")
      ({ acc with balance := acc.balance - amount }.balance + amount)
      ((insertTxn (updateBalance s aid (acc.balance - amount))
        (newTxn aid TransactionType.WITHDRAWAL amount
          ((some ("Transfer to " ++ acc.account_number)).getD "ATM Withdrawal")
          (acc.balance - amount) (s.clock + 1))).clock + 1),
    ?_, ?_, rfl, rfl, ?_⟩
  · unfold transfer
    simp only [h, if_neg hge, hw, hd]
  · unfold transfer
    simp only [h, if_neg hge, hw, hd]
    simp
  · unfold transfer
    simp only [h, if_neg hge, hw, hd]
    simp only [lookup_insertTxn, lookup_updateBalance, hlook1, if_pos rfl]
    simp [sub_add_cancel]

end AtmSpec

namespace AtmSpec

/-- Witness for C7 (amended): concrete self-transfer of 50 on the
balance-100 account. -/
theorem C7_self_transfer_not_rejected_witness :
    ∃ w dt : Txn,
      (transfer noFail baseState 1 1 50).2 = Except.ok (w, dt) ∧
      (transfer noFail baseState 1 1 50).1.transactions =
        baseState.transactions ++ [w, dt] ∧
      w.transaction_type = TransactionType.WITHDRAWAL ∧
      dt.transaction_type = TransactionType.DEPOSIT ∧
      lookupAccount (transfer noFail baseState 1 1 50).1 1 = some accA :=
  C7_self_transfer_not_rejected baseState 1 accA 50 (by with_unfolding_all decide)
    (by with_unfolding_all decide) (by with_unfolding_all decide)

/-- The WHERE clause of the history query, spelled out in the terms of the
specification: same account, inside the optional inclusive bounds, an
absent bound meaning unbounded on that side. -/
theorem historyMatches_iff (aid : Nat) (sd ed : Option Nat) (t : Txn) :
    historyMatches aid sd ed t = true ↔
      (t.account_id = aid ∧ (∀ d0, sd = some d0 → d0 ≤ t.created_at) ∧
       (∀ d1, ed = some d1 → t.created_at ≤ d1)) := by
  unfold historyMatches afterStart beforeEnd
  cases sd <;> cases ed <;> simp [and_assoc]

/-- Claim C8: for every account and every pair of optional date bounds, the
history query returns exactly the transactions of that account inside the
inclusive bounds (an absent bound is unbounded on its side), ordered by
`created_at` descending; no matching row is dropped or duplicated, and an
empty result is an ordinary value of the query. -/
theorem C8_history_query (s : DBState) (aid : Nat) (sd ed : Option Nat) :
    List.Sorted createdDesc (account_history s aid sd ed) ∧
    (account_history s aid sd ed).Perm
      (s.transactions.filter (historyMatches aid sd ed)) ∧
    ∀ t : Txn, t ∈ account_history s aid sd ed ↔
      (t ∈ s.transactions ∧ t.account_id = aid ∧
        (∀ d0, sd = some d0 → d0 ≤ t.created_at) ∧
        (∀ d1, ed = some d1 → t.created_at ≤ d1)) := by
  refine ⟨List.sorted_insertionSort _ _, List.perm_insertionSort _ _, fun t => ?_⟩
  unfold account_history
  rw [List.mem_insertionSort, List.mem_filter, historyMatches_iff]

/-- Counterexample for C9: an unknown card number and a wrong PIN are two
failing validation requests whose observable failures differ in wording, so
failures do reveal which check failed. -/
theorem C9_counterexample_distinct_failures :
    validate_card baseState "9999" "1234" = Except.error "Invalid card" ∧
    validate_card baseState "1111" "0000" = Except.error "Invalid PIN" ∧
    ("Invalid card" : String) ≠ "Invalid PIN" := by
  with_unfolding_all decide

/-- Claim C9 (amended): each failing card-validation check raises its own
distinct message, observable by the caller: unknown card number gives
"Invalid card", wrong PIN gives "Invalid PIN", and an inactive card gives
"Card is not active"; the failure wording identifies the failed check. -/
theorem C9_failure_wording_reveals_check (s : DBState) (num pin : String)
    (card : Card) :
    (s.cards.find? (fun c => c.card_number == num) = none →
      validate_card s num pin = Except.error "Invalid card") ∧
    (s.cards.find? (fun c => c.card_number == num) = some card →
      card.pin_hash ≠ pin →
      validate_card s num pin = Except.error "Invalid PIN") ∧
    (s.cards.find? (fun c => c.card_number == num) = some card →
      card.pin_hash = pin → card.status ≠ "ACTIVE" →
      validate_card s num pin = Except.error "Card is not active") := by
  refine ⟨fun h => ?_, fun h hp => ?_, fun h hp hs => ?_⟩
  · unfold validate_card
    rw [h]
  · unfold validate_card
    rw [h]
    simp [hp]
  · unfold validate_card
    rw [h]
    simp [hp, hs]

/-- Witness for C9 (amended): the three failing checks on concrete cards. -/
theorem C9_failure_wording_reveals_check_witness :
    validate_card baseState "9999" "1234" = Except.error "Invalid card" ∧
    validate_card baseState "1111" "0000" = Except.error "Invalid PIN" ∧
    validate_card baseState "2222" "1234" = Except.error "Card is not active" :=
  ⟨(C9_failure_wording_reveals_check baseState "9999" "1234" cardOk).1
     (by with_unfolding_all decide),
   (C9_failure_wording_reveals_check baseState "1111" "0000" cardOk).2.1
     (by with_unfolding_all decide) (by with_unfolding_all decide),
   (C9_failure_wording_reveals_check baseState "2222" "1234" cardBlocked).2.2
     (by with_unfolding_all decide) (by with_unfolding_all decide)
     (by with_unfolding_all decide)⟩

/-- Counterexample for C10: on an existing account whose balance is 0, the
withdrawal of an amount exactly equal to the balance does not succeed: the
zero amount fails the model validation and the operation returns an
invalid-amount failure with no transaction row. -/
theorem C10_counterexample_zero_balance :
    lookupAccount zeroState 1 = some accB ∧
    accB.balance = 0 ∧
    withdraw noFail zeroState 1 accB.balance none =
      (zeroState, Except.error ATMError.invalidAmount) := by
  with_unfolding_all decide

/-- Claim C10 (amended): on an existing account with strictly positive
balance, withdrawing exactly the balance succeeds, because the sufficiency
check is a strict less-than comparison; the COMPLETED row records
`balance_after` 0 and the account balance becomes exactly 0. -/
theorem C10_exact_balance_withdrawal (s : DBState) (aid : Nat) (acc : Account)
    (d : Option String) (h : lookupAccount s aid = some acc)
    (hpos : 0 < acc.balance) :
    ∃ t : Txn,
      (withdraw noFail s aid acc.balance d).2 = Except.ok t ∧
      t.status = TransactionStatus.COMPLETED ∧
      t.balance_after = 0 ∧
      (withdraw noFail s aid acc.balance d).1.transactions =
        s.transactions ++ [t] ∧
      lookupAccount (withdraw noFail s aid acc.balance d).1 aid =
        some { acc with balance := 0 } := by
  have hge : ¬ acc.balance < acc.balance := lt_irrefl _
  have ha2 : ¬ acc.balance ≤ 0 := not_le.2 hpos
  refine ⟨newTxn aid TransactionType.WITHDRAWAL acc.balance (d.getD "ATM Withdrawal")
      (acc.balance - acc.balance) (s.clock + 1), ?_, rfl, ?_, ?_, ?_⟩
  · rw [withdraw_ok h hge ha2 rfl rfl]
  · simp [newTxn]
  · rw [withdraw_ok h hge ha2 rfl rfl]
    simp
  · rw [withdraw_ok h hge ha2 rfl rfl]
    simp [lookup_updateBalance, h, sub_self]

/-- Witness for C10 (amended): withdrawing the full balance of 100 from
the concrete balance-100 account. -/
theorem C10_exact_balance_withdrawal_witness :
    ∃ t : Txn,
      (withdraw noFail baseState 1 accA.balance none).2 = Except.ok t ∧
      t.status = TransactionStatus.COMPLETED ∧
      t.balance_after = 0 ∧
      (withdraw noFail baseState 1 accA.balance none).1.transactions =
        baseState.transactions ++ [t] ∧
      lookupAccount (withdraw noFail baseState 1 accA.balance none).1 1 =
        some { accA with balance := 0 } :=
  C10_exact_balance_withdrawal baseState 1 accA none (by with_unfolding_all decide)
    (by with_unfolding_all decide)

end AtmSpec

